import Mathlib

/-!
Verification of the parameter-space encoding and fit-orchestration layer of
`mljs/optimize-lorentzian`, a JavaScript library that fits a spectrum to a sum
of bell-shaped peak functions.  The definitions below are a shallow embedding
of `src/index.js` (entry point `optimize` and its helper `getValue`) and of the
shape constructors in `src/shapes/*.js`.  The helpers `checkInput` and
`selectMethod` are imported by `src/index.js` but their source files are not
part of the repository snapshot; they are modelled from the specification and
from the jsdoc defaults documented in `src/index.js` (each such definition is
marked `Modelled from the spec:`).

JavaScript numbers are embedded as `F64`: either a finite rational or `nan`.
The non-finite values NaN and ±Infinity are conflated into `nan`; every theorem
below either stays in the finite regime (where the embedding is exact) or
exercises a NaN-producing path whose JS result is indeed NaN (0/0, coercing a
function into a `Float64Array` slot).
-/

namespace OptLor

/-- JS number: a finite rational or `nan` (conflating NaN and ±Infinity). -/
inductive F64 where
  | nan : F64
  | num (q : ℚ) : F64
  deriving DecidableEq

namespace F64

/-- JS addition: NaN-propagating. -/
def add : F64 → F64 → F64
  | num a, num b => num (a + b)
  | _, _ => nan

/-- JS subtraction: NaN-propagating. -/
def sub : F64 → F64 → F64
  | num a, num b => num (a - b)
  | _, _ => nan

/-- JS multiplication: NaN-propagating. -/
def mul : F64 → F64 → F64
  | num a, num b => num (a * b)
  | _, _ => nan

/-- JS division: NaN-propagating.  Division of a finite number by zero yields
±Infinity (NaN for 0/0) in JS; both are conflated into `nan`, and theorems
touching a division keep its divisor nonzero except where 0/0 is intended. -/
def div : F64 → F64 → F64
  | num a, num b => if b = 0 then nan else num (a / b)
  | _, _ => nan

/-- JS `<` comparison: any comparison with NaN is false. -/
def lt : F64 → F64 → Bool
  | num a, num b => decide (a < b)
  | _, _ => false

end F64

instance : Add F64 := ⟨F64.add⟩
instance : Sub F64 := ⟨F64.sub⟩
instance : Mul F64 := ⟨F64.mul⟩
instance : Div F64 := ⟨F64.div⟩
instance : Zero F64 := ⟨F64.num 0⟩

/-- The numeric fields of a peak object, as visible to a caller-supplied
override function (`peak => ...`): position, height, width and the optional
pseudo-Voigt mixing fraction.  An absent `mu` field is `none`. -/
structure PeakArgs where
  x : F64
  y : F64
  width : F64
  mu : Option F64 := none

/-- A JS value that may sit in an override slot: a number or a one-argument
function of the peak object. -/
inductive JSVal where
  | val (v : F64)
  | fn (f : PeakArgs → F64)

/-- A peak object: numeric fields plus the optional per-peak gradient-step
override fields read by `getValue` (`src/index.js`, `STATE_GRADIENT_DIFFERENCE`
branch).  `none` models an absent (`undefined`) field. -/
structure Peak extends PeakArgs where
  xGradientDifference : Option JSVal := none
  yGradientDifference : Option JSVal := none
  widthGradientDifference : Option JSVal := none
  muGradientDifference : Option JSVal := none

/-- Placeholder peak used for out-of-range list reads; every theorem keeps its
indices in range, so its value is never observable. -/
def defaultPeak : Peak := { x := F64.nan, y := F64.nan, width := F64.nan }

/-- The `getValueOptions` record handed from `checkInput` to `getValue`.
`maxY` and the eight factor fields are numbers; `yGradientDifference` and
`muGradientDifference` always carry a value after `checkInput` applied the
documented defaults (`src/index.js` jsdoc), while the x/width gradient options
may be absent. -/
structure GetValueOptions where
  maxY : F64
  minFactorX : F64
  maxFactorX : F64
  minFactorY : F64
  maxFactorY : F64
  minFactorWidth : F64
  maxFactorWidth : F64
  minMuValue : F64
  maxMuValue : F64
  xGradientDifference : Option JSVal := none
  yGradientDifference : JSVal
  widthGradientDifference : Option JSVal := none
  muGradientDifference : JSVal

/-- State constant `STATE_INIT` of `src/index.js`. -/
def STATE_INIT : ℕ := 0
/-- State constant `STATE_MIN` of `src/index.js`. -/
def STATE_MIN : ℕ := 1
/-- State constant `STATE_MAX` of `src/index.js`. -/
def STATE_MAX : ℕ := 2
/-- State constant `STATE_GRADIENT_DIFFERENCE` of `src/index.js`. -/
def STATE_GRADIENT_DIFFERENCE : ℕ := 3

/-- JS truthiness fallback `m || d` for the `peak.mu || 0.5` expression:
`undefined`, `NaN` and `0` are all falsy. -/
def jsOr (m : Option F64) (d : F64) : F64 :=
  match m with
  | none => d
  | some F64.nan => d
  | some (F64.num q) => if q = 0 then d else F64.num q

/-- Embedding of `getValue(parameterIndex, peak, state, options)` from
`src/index.js`.  Parameter indices: 0 = X, 1 = Y, 2 = WIDTH, 3 = MU.  A JS
`throw` is an `Except.error`.  The gradient-difference branch returns the raw
slot value (possibly a function) without invoking it, exactly as the source
does. -/
def getValue (parameterIndex : ℕ) (peak : Peak) (state : ℕ)
    (options : GetValueOptions) : Except String JSVal :=
  match state with
  | 0 =>  -- STATE_INIT
    match parameterIndex with
    | 0 => .ok (.val peak.x)
    | 1 => .ok (.val (peak.y / options.maxY))
    | 2 => .ok (.val peak.width)
    | 3 => .ok (.val (jsOr peak.mu (F64.num (1/2))))
    | _ => .error "The parameter is not supported"
  | 3 =>  -- STATE_GRADIENT_DIFFERENCE
    match parameterIndex with
    | 0 => .ok (peak.xGradientDifference.getD
        (options.xGradientDifference.getD (.val (peak.width / F64.num 2000))))
    | 1 => .ok (peak.yGradientDifference.getD options.yGradientDifference)
    | 2 => .ok (peak.widthGradientDifference.getD
        (options.widthGradientDifference.getD (.val (peak.width / F64.num 2000))))
    | 3 => .ok (peak.muGradientDifference.getD options.muGradientDifference)
    | _ => .error "The parameter is not supported"
  | 1 =>  -- STATE_MIN
    match parameterIndex with
    | 0 => .ok (.val (peak.x - peak.width * options.minFactorX))
    | 1 => .ok (.val ((peak.y / options.maxY) * options.minFactorY))
    | 2 => .ok (.val (peak.width * options.minFactorWidth))
    | 3 => .ok (.val options.minMuValue)
    | _ => .error "The parameter is not supported"
  | 2 =>  -- STATE_MAX
    match parameterIndex with
    | 0 => .ok (.val (peak.x + peak.width * options.maxFactorX))
    | 1 => .ok (.val ((peak.y / options.maxY) * options.maxFactorY))
    | 2 => .ok (.val (peak.width * options.maxFactorWidth))
    | 3 => .ok (.val options.maxMuValue)
    | _ => .error "The parameter is not supported"
  | _ => .error "the state is not supported"

/-- Coercion applied when a value is stored into a `Float64Array` slot: a
number is stored as-is, a function coerces to NaN. -/
def toFloat : JSVal → F64
  | .val v => v
  | .fn _ => F64.nan

/-- The value `getValue` yields when it does not throw (total companion used
in lemma statements; the error branch is never reached for parameter indices
and states below 4). -/
def getValueV (parameterIndex : ℕ) (peak : Peak) (state : ℕ)
    (options : GetValueOptions) : JSVal :=
  match getValue parameterIndex peak state options with
  | .ok v => v
  | .error _ => .val F64.nan

/-- Embedding of `sumOfGaussians` (`src/shapes/sumOfGaussians.js`).  The
external evaluator `gaussianFct` is a parameter; the source calls
`gaussianFct(p[i], p[i + nL], p[i + nL * 2], t)`.  JS computes `nL` by exact
division and an out-of-range read yields `undefined`; the embedding uses
natural division and a `nan` default, which agree with JS whenever `p.length`
is a multiple of 3 (elsewhere the source's output is the undefined-NaN regime
the spec declares a caller contract violation). -/
def sumOfGaussians (gaussianFct : F64 → F64 → F64 → F64 → F64)
    (p : List F64) : F64 → F64 := fun t =>
  let nL := p.length / 3
  (List.range nL).foldl
    (fun result i =>
      result + gaussianFct (p.getD i F64.nan) (p.getD (i + nL) F64.nan)
        (p.getD (i + nL * 2) F64.nan) t)
    (F64.num 0)

/-- Embedding of `sumOfLorentzians` (`src/shapes/sumOfLorentzians.js`).  The
source builds `lorentzianFct({x: p[i], y: p[i+nL], width: p[i+nL*2]})` and
applies it to `t`; the external evaluator is curried here in that field
order. -/
def sumOfLorentzians (lorentzianFct : F64 → F64 → F64 → F64 → F64)
    (p : List F64) : F64 → F64 := fun t =>
  let nL := p.length / 3
  (List.range nL).foldl
    (fun result i =>
      result + lorentzianFct (p.getD i F64.nan) (p.getD (i + nL) F64.nan)
        (p.getD (i + nL * 2) F64.nan) t)
    (F64.num 0)

/-- Embedding of `sumOfGaussianLorentzians` (`src/shapes/sumOfGaussianLorentzians.js`).
The source builds `pseudovoigtFct({x: p[i], y: p[i+nL], width: p[i+nL*2],
mu: p[i+nL*3]})` with `nL = p.length / 4` and applies it to `t`. -/
def sumOfGaussianLorentzians (pseudovoigtFct : F64 → F64 → F64 → F64 → F64 → F64)
    (p : List F64) : F64 → F64 := fun t =>
  let nL := p.length / 4
  (List.range nL).foldl
    (fun result i =>
      result + pseudovoigtFct (p.getD i F64.nan) (p.getD (i + nL) F64.nan)
        (p.getD (i + nL * 2) F64.nan) (p.getD (i + nL * 3) F64.nan) t)
    (F64.num 0)

/-- The external closed-form peak evaluators from `ml-peak-shape-generator`,
consumed through their functional contract only. -/
structure Externals where
  gaussianFct : F64 → F64 → F64 → F64 → F64
  lorentzianFct : F64 → F64 → F64 → F64 → F64
  pseudovoigtFct : F64 → F64 → F64 → F64 → F64 → F64

/-- The supported shape kinds. -/
inductive ShapeKind where
  | gaussian
  | lorentzian
  | pseudovoigt
  deriving DecidableEq

/-- The composite model constructor for a shape kind (the `switch (kind)`
visible in the second `optimize` generation of `src/index.js`, lines
212-227). -/
def paramsFuncOf (ext : Externals) : ShapeKind → List F64 → F64 → F64
  | .gaussian => sumOfGaussians ext.gaussianFct
  | .lorentzian => sumOfLorentzians ext.lorentzianFct
  | .pseudovoigt => sumOfGaussianLorentzians ext.pseudovoigtFct

/-- The external `ml-array-max`: maximum of a sequence, first element as the
running seed, comparisons with NaN false (so NaN entries are skipped unless
first); an empty input throws. -/
def getMaxValue (l : List F64) : Except String F64 :=
  match l with
  | [] => .error "input must not be empty"
  | a :: r => .ok (r.foldl (fun m v => if F64.lt m v then v else m) a)

/-- The spectrum input `{x, y}`. -/
structure DataInput where
  x : List F64
  y : List F64

/-- Caller options, flattened to the fields the embedded layer reads.  `none`
models an absent option; defaults are applied by `checkInput`. -/
structure Options where
  shapeKind : Option String := none
  optimizationKind : Option String := none
  minFactorX : Option F64 := none
  maxFactorX : Option F64 := none
  minFactorY : Option F64 := none
  maxFactorY : Option F64 := none
  minFactorWidth : Option F64 := none
  maxFactorWidth : Option F64 := none
  minMuValue : Option F64 := none
  maxMuValue : Option F64 := none
  xGradientDifference : Option JSVal := none
  yGradientDifference : Option JSVal := none
  widthGradientDifference : Option JSVal := none
  muGradientDifference : Option JSVal := none

/-- The resolved optimization group forwarded to `selectMethod`. -/
structure OptimizationResolved where
  kind : String

/-- What `checkInput` returns to `optimize` (destructured at the top of
`optimize` in `src/index.js`). -/
structure CheckedInput where
  x : List F64
  y : List F64
  maxY : F64
  nbParams : ℕ
  shape : ShapeKind
  optimization : OptimizationResolved
  getValueOptions : GetValueOptions

/-- Modelled from the spec: `checkInput` (imported by `src/index.js` but absent
from the repository snapshot; only its jsdoc defaults and a test are visible).
Per spec §4.3 and §7 it resolves the shape kind (default `gaussian`;
unsupported kinds are a fatal configuration error raised before numeric work),
normalizes `y` by its maximum, fixes `nbParams` (3, or 4 for pseudo-Voigt),
and builds `getValueOptions` from the documented defaults: factors 2/2 for x,
0/1.5 for y, 0.25/4 for width, mu bounds 0/1, gradient defaults 1e-3 (y) and
0.01 (mu).  It performs no validation of `x`/`y` lengths or of the peaks (spec
§7 "input shape error ... not separately validated"). -/
def checkInput (data : DataInput) (options : Options) : Except String CheckedInput := do
  let nbShape ←
    match options.shapeKind.getD "gaussian" with
    | "gaussian" => Except.ok ((3 : ℕ), ShapeKind.gaussian)
    | "lorentzian" => Except.ok ((3 : ℕ), ShapeKind.lorentzian)
    | "pseudovoigt" => Except.ok ((4 : ℕ), ShapeKind.pseudovoigt)
    | _ => Except.error "kind of shape is not supported"
  let maxY ← getMaxValue data.y
  let y := data.y.map (fun e => e / maxY)
  Except.ok
    { x := data.x, y := y, maxY := maxY, nbParams := nbShape.1, shape := nbShape.2
      optimization := { kind := options.optimizationKind.getD "lm" }
      getValueOptions :=
        { maxY := maxY
          minFactorX := options.minFactorX.getD (F64.num 2)
          maxFactorX := options.maxFactorX.getD (F64.num 2)
          minFactorY := options.minFactorY.getD (F64.num 0)
          maxFactorY := options.maxFactorY.getD (F64.num (3/2))
          minFactorWidth := options.minFactorWidth.getD (F64.num (1/4))
          maxFactorWidth := options.maxFactorWidth.getD (F64.num 4)
          minMuValue := options.minMuValue.getD (F64.num 0)
          maxMuValue := options.maxMuValue.getD (F64.num 1)
          xGradientDifference := options.xGradientDifference
          yGradientDifference :=
            options.yGradientDifference.getD (.val (F64.num (1/1000)))
          widthGradientDifference := options.widthGradientDifference
          muGradientDifference :=
            options.muGradientDifference.getD (.val (F64.num (1/100))) } }

/-- The solver's tuning plus the four flat vectors attached by `optimize`. -/
structure SolverConfig where
  damping : ℚ := 3/2
  maxIterations : ℕ := 100
  errorTolerance : ℚ := 1/100000000
  minValues : List F64 := []
  maxValues : List F64 := []
  initialValues : List F64 := []
  gradientDifference : List F64 := []

/-- What the external solver returns. -/
structure PFit where
  parameterValues : List F64
  parameterError : F64
  iterations : ℕ

/-- The external nonlinear solver capability:
`solve(data, modelBuilder, config)`, with `data` split into its `x`/`y`
sequences. -/
def Solver : Type :=
  List F64 → List F64 → (List F64 → F64 → F64) → SolverConfig → PFit

/-- Modelled from the spec: `selectMethod` (imported by `src/index.js` but
absent from the repository snapshot).  Per spec §4.2 it maps the method name
(default `"lm"`) to the Levenberg-Marquardt entry point together with a fresh
default configuration, and rejects unknown names before any solver
invocation. -/
def selectMethod (lm : Solver) (optimization : OptimizationResolved) :
    Except String (Solver × SolverConfig) :=
  match optimization.kind with
  | "lm" => .ok (lm, {})
  | _ => .error "The optimization method is not supported"

/-- An identity solver: returns its initial-value vector unchanged (used to
state the round-trip property of spec §8). -/
def identitySolver : Solver := fun _ _ _ cfg =>
  { parameterValues := cfg.initialValues, parameterError := F64.num 0, iterations := 0 }

/-- JSON round trip of one override slot: numbers survive, function values are
dropped by `JSON.stringify`. -/
def jsonNumOpt : Option JSVal → Option JSVal
  | some (.val v) => some (.val v)
  | _ => none

/-- Embedding of `JSON.parse(JSON.stringify(peak))` on one peak: numeric
fields are copied, function-valued override fields are dropped.  (JS would
turn a NaN field into `null`; the theorems below only JSON-copy peaks whose
numeric fields are finite, where the embedding is exact.) -/
def jsonCopy (p : Peak) : Peak :=
  { x := p.x, y := p.y, width := p.width, mu := p.mu
    xGradientDifference := jsonNumOpt p.xGradientDifference
    yGradientDifference := jsonNumOpt p.yGradientDifference
    widthGradientDifference := jsonNumOpt p.widthGradientDifference
    muGradientDifference := jsonNumOpt p.muGradientDifference }

/-- Embedding of the parameter-vector build loop of `optimize`
(`src/index.js` lines 57-74): four `Float64Array`s of length
`nbShapes * nbParams`, zero-initialized, filled for each peak `i` and
parameter kind `s` at flat index `i + s * nbShapes`; a `getValue` throw
propagates out. -/
def buildVectors (peaks : List Peak) (nbParams : ℕ) (opts : GetValueOptions) :
    Except String (List F64 × List F64 × List F64 × List F64) :=
  let n := peaks.length
  let z := List.replicate (n * nbParams) (F64.num 0)
  (List.range n).foldlM
    (fun acc i =>
      let peak := peaks.getD i defaultPeak
      (List.range nbParams).foldlM
        (fun acc s => do
          let vInit ← getValue s peak STATE_INIT opts
          let vMin ← getValue s peak STATE_MIN opts
          let vMax ← getValue s peak STATE_MAX opts
          let vGrad ← getValue s peak STATE_GRADIENT_DIFFERENCE opts
          pure (acc.1.set (i + s * n) (toFloat vInit),
            acc.2.1.set (i + s * n) (toFloat vMin),
            acc.2.2.1.set (i + s * n) (toFloat vMax),
            acc.2.2.2.set (i + s * n) (toFloat vGrad)))
        acc)
    (z, z, z, z)

/-- The property keys written back by the decode loop (`keys` in
`src/index.js`). -/
def keys : List String := ["x", "y", "width", "mu"]

/-- Embedding of `peaks[i][keys[s]] = v`: which field is written for parameter
kind `s`.  `s` is always below `nbParams ≤ 4`; the catch-all arm is
unreachable. -/
def setKey (p : Peak) (s : ℕ) (v : F64) : Peak :=
  match s with
  | 0 => { p with x := v }
  | 1 => { p with y := v }
  | 2 => { p with width := v }
  | 3 => { p with mu := some v }
  | _ => p

/-- Embedding of the decode loop of `optimize` (`src/index.js` lines 87-93):
for each peak `i`, slot `i + peaks.length` of the solver's parameter vector is
first multiplied in place by `maxY`, then each parameter kind `s` is written
back from flat index `i + s * peaks.length` into the peak's field `keys[s]`. -/
def decodeLoop (pv : List F64) (peaks : List Peak) (nbParams : ℕ) (maxY : F64) :
    List F64 × List Peak :=
  let n := peaks.length
  (List.range n).foldl
    (fun st i =>
      let pv := st.1.set (i + n) (st.1.getD (i + n) F64.nan * maxY)
      let pk := (List.range nbParams).foldl
        (fun p s => setKey p s (pv.getD (i + s * n) F64.nan))
        (st.2.getD i defaultPeak)
      (pv, st.2.set i pk))
    (pv, peaks)

/-- The value `optimize` returns. -/
structure FitResult where
  error : F64
  iterations : ℕ
  peaks : List Peak

/-- Embedding of `optimize(data, peaks, options)` (`src/index.js` lines
43-96) over peak values: `checkInput`, JSON deep copy of the peak list, the
vector build loop, `selectMethod`, the solver call, and the decode loop.  The
external solver entry point and shape evaluators are parameters. -/
def optimizeCore (ext : Externals) (lm : Solver) (data : DataInput)
    (peaks : List Peak) (options : Options) : Except String FitResult := do
  let ci ← checkInput data options
  let peaksC := peaks.map jsonCopy
  let (pInit, pMin, pMax, gradientDifference) ←
    buildVectors peaksC ci.nbParams ci.getValueOptions
  let (algorithm, optimizationOptions) ← selectMethod lm ci.optimization
  let cfg := { optimizationOptions with
    minValues := pMin
    maxValues := pMax
    initialValues := pInit
    gradientDifference := gradientDifference }
  let pFit := algorithm ci.x ci.y (paramsFuncOf ext ci.shape) cfg
  let decoded := decodeLoop pFit.parameterValues peaksC ci.nbParams ci.maxY
  .ok { error := pFit.parameterError, iterations := pFit.iterations
        peaks := decoded.2 }

/-- The flat-vector entry produced for peak `i`, parameter kind `s` and
resolution state `st` (total companion to one `getValue` call followed by the
`Float64Array` store). -/
def buildEntry (peaks : List Peak) (st : ℕ) (opts : GetValueOptions) (i s : ℕ) : F64 :=
  toFloat (getValueV s (peaks.getD i defaultPeak) st opts)

/-- A zero-initialized buffer of length `n * m` filled at flat index
`i + s * n` with `w i s`, mirroring the build loop's write pattern for one of
the four vectors. -/
def gridVec (n m : ℕ) (w : ℕ → ℕ → F64) : List F64 :=
  (List.range n).foldl
    (fun L i' => (List.range m).foldl (fun M s' => M.set (i' + s' * n) (w i' s')) L)
    (List.replicate (n * m) (F64.num 0))

/-- What the decode loop writes into peak `i`: field `keys[s]` receives flat
slot `i + s * n` of the solver's vector, the height slot having been scaled by
`maxY`. -/
def decodedPeak (pv : List F64) (n nbParams : ℕ) (maxY : F64) (p : Peak) (i : ℕ) : Peak :=
  (List.range nbParams).foldl
    (fun q s => setKey q s
      (if s = 1 then pv.getD (i + n) F64.nan * maxY else pv.getD (i + s * n) F64.nan))
    p

/-- Modelled from the spec: the override resolution of `checkInput` for one
bound of one parameter kind (the source of `checkInput` is absent from the
repository snapshot; only its test is visible).  An
`optimization.parameters.<kind>.<min|max>` override that is a function of the
peak is invoked on the peak; a literal override is used as-is; otherwise the
built-in default formula applies. -/
def resolveParameterOverride (override : Option JSVal) (defaultValue : PeakArgs → F64)
    (peak : PeakArgs) : F64 :=
  match override with
  | some (.fn f) => f peak
  | some (.val v) => v
  | none => defaultValue peak

/-- The fit result at the heap level: the output peak list is a list of object
references (indices into the heap). -/
structure HeapFitResult where
  error : F64
  iterations : ℕ
  peakIds : List ℕ
  deriving DecidableEq

/-- Reference-semantics view of `optimize`: the caller's peak list is a list
of object references into a heap.  `JSON.parse(JSON.stringify(peaks))`
allocates fresh objects (appended at the end of the heap); all fitted values
are written into those copies only, so the heap's original prefix is returned
untouched and the result references only the fresh objects.  On a
configuration error the heap is unchanged (the error is raised before, or
independent of, any write to an existing object). -/
def optimizeHeap (ext : Externals) (lm : Solver) (data : DataInput)
    (heap : List Peak) (peakIds : List ℕ) (options : Options) :
    List Peak × Except String HeapFitResult :=
  match optimizeCore ext lm data
      (peakIds.map (fun id => heap.getD id defaultPeak)) options with
  | .error e => (heap, .error e)
  | .ok r =>
    (heap ++ r.peaks,
      .ok { error := r.error, iterations := r.iterations
            peakIds := List.range' heap.length r.peaks.length })

/-! Concrete fixtures used by the witness and counterexample theorems. -/

/-- The spectrum used by the repository's `checkInput` test:
`{x: [-1, 0, 1], y: [1, 2, 1]}` (so `max(y) = 2`). -/
def dataA : DataInput :=
  ⟨[F64.num (-1), F64.num 0, F64.num 1], [F64.num 1, F64.num 2, F64.num 1]⟩

/-- The peak used by the repository's `checkInput` test: `{x: 0, y: 1, width: 2}`. -/
def peakA : Peak := { x := F64.num 0, y := F64.num 1, width := F64.num 2 }

/-- `peakA` with an explicit zero mixing fraction. -/
def pkMu0 : Peak := { x := F64.num 0, y := F64.num 1, width := F64.num 2
                      mu := some (F64.num 0) }

/-- A peak of height zero, used against an all-zero spectrum. -/
def pkY0 : Peak := { x := F64.num 0, y := F64.num 0, width := F64.num 2 }

/-- A degenerate peak of width zero. -/
def pkW0 : Peak := { x := F64.num 0, y := F64.num 1, width := F64.num 0 }

/-- `peakA` carrying a literal per-peak gradient-step override. -/
def pkGdA : Peak := { x := F64.num 0, y := F64.num 1, width := F64.num 2
                      xGradientDifference := some (.val (F64.num 7)) }

/-- A spectrum whose `y` is identically zero (`max(y) = 0`). -/
def dataZeroY : DataInput := ⟨[F64.num 0, F64.num 1], [F64.num 0, F64.num 0]⟩

/-- Mismatched input: three abscissa samples against two ordinate samples. -/
def dataMis : DataInput :=
  ⟨[F64.num 0, F64.num 1, F64.num 2], [F64.num 1, F64.num 2]⟩

/-- A small well-formed spectrum (`max(y) = 2`). -/
def dataB : DataInput := ⟨[F64.num 0, F64.num 1], [F64.num 1, F64.num 2]⟩

/-- Trivial external evaluators (the identity solver never calls them). -/
def extW : Externals :=
  ⟨fun _ _ _ _ => F64.num 0, fun _ _ _ _ => F64.num 0, fun _ _ _ _ _ => F64.num 0⟩

/-- The `getValueOptions` record `checkInput` produces for `dataA` under
default options. -/
def gvoA : GetValueOptions :=
  { maxY := F64.num 2
    minFactorX := F64.num 2
    maxFactorX := F64.num 2
    minFactorY := F64.num 0
    maxFactorY := F64.num (3/2)
    minFactorWidth := F64.num (1/4)
    maxFactorWidth := F64.num 4
    minMuValue := F64.num 0
    maxMuValue := F64.num 1
    xGradientDifference := none
    yGradientDifference := .val (F64.num (1/1000))
    widthGradientDifference := none
    muGradientDifference := .val (F64.num (1/100)) }

/-- The full `CheckedInput` for `dataA` under default options. -/
def ciA : CheckedInput :=
  { x := [F64.num (-1), F64.num 0, F64.num 1]
    y := [F64.num (1/2), F64.num 1, F64.num (1/2)]
    maxY := F64.num 2
    nbParams := 3
    shape := ShapeKind.gaussian
    optimization := { kind := "lm" }
    getValueOptions := gvoA }

/-- `gvoA` with a function-valued x gradient-step option override. -/
def gvoFn : GetValueOptions :=
  { gvoA with xGradientDifference := some (.fn (fun p => p.width)) }

/-- The peak-argument record for `peakA`. -/
def pkArgsA : PeakArgs := { x := F64.num 0, y := F64.num 1, width := F64.num 2 }

/-- The heap-level fit result of running the identity solver over `dataA`
with the single caller peak `peakA` stored at heap index 0. -/
def rW : HeapFitResult := { error := F64.num 0, iterations := 0, peakIds := [1] }

/-- A 3-entry parameter vector (one Gaussian or Lorentzian peak). -/
def p3 : List F64 := [F64.num 1, F64.num 2, F64.num 3]

/-- A 4-entry parameter vector (one pseudo-Voigt peak). -/
def q4 : List F64 := [F64.num 1, F64.num 2, F64.num 3, F64.num 4]

/-! Arithmetic simp lemmas for `F64`. -/

@[simp] theorem num_add_num (a b : ℚ) : F64.num a + F64.num b = F64.num (a + b) := rfl

@[simp] theorem num_sub_num (a b : ℚ) : F64.num a - F64.num b = F64.num (a - b) := rfl

@[simp] theorem num_mul_num (a b : ℚ) : F64.num a * F64.num b = F64.num (a * b) := rfl

@[simp] theorem num_div_num (a b : ℚ) :
    F64.num a / F64.num b = if b = 0 then F64.nan else F64.num (a / b) := rfl

@[simp] theorem nan_add (x : F64) : F64.nan + x = F64.nan := rfl

@[simp] theorem add_nan (x : F64) : x + F64.nan = F64.nan := by cases x <;> rfl

@[simp] theorem nan_mul (x : F64) : F64.nan * x = F64.nan := rfl

@[simp] theorem mul_nan (x : F64) : x * F64.nan = F64.nan := by cases x <;> rfl

@[simp] theorem nan_div (x : F64) : F64.nan / x = F64.nan := rfl

@[simp] theorem div_nan (x : F64) : x / F64.nan = F64.nan := by cases x <;> rfl

@[simp] theorem lt_num_num (a b : ℚ) :
    F64.lt (F64.num a) (F64.num b) = decide (a < b) := rfl

theorem f64_add_assoc (a b c : F64) : a + b + c = a + (b + c) := by
  cases a <;> cases b <;> cases c <;>
    first
    | rfl
    | exact congrArg F64.num (add_assoc _ _ _)

theorem f64_add_zero (a : F64) : a + F64.num 0 = a := by
  cases a
  · rfl
  · exact congrArg F64.num (add_zero _)

theorem f64_zero_add (a : F64) : F64.num 0 + a = a := by
  cases a
  · rfl
  · exact congrArg F64.num (zero_add _)

/-! Generic list lemmas about `set`, `getD` and folds. -/

theorem getD_set_ne {α : Type} (l : List α) {i k : ℕ} (h : i ≠ k) (v d : α) :
    (l.set i v).getD k d = l.getD k d := by
  simp [List.getD_eq_getElem?_getD, List.getElem?_set_ne h]

theorem getD_set_self {α : Type} (l : List α) {k : ℕ} (h : k < l.length) (v d : α) :
    (l.set k v).getD k d = v := by
  simp [List.getD_eq_getElem?_getD, List.getElem?_set_eq_of_lt v h]

theorem foldl_getD_of_preserved {α β : Type} (f : List α → β → List α) (l : List β)
    (L : List α) (k : ℕ) (d : α) (h : ∀ M x, x ∈ l → (f M x).getD k d = M.getD k d) :
    (l.foldl f L).getD k d = L.getD k d := by
  induction l generalizing L with
  | nil => rfl
  | cons a t ih =>
    simp only [List.foldl_cons]
    rw [ih (f L a) (fun M x hx => h M x (List.mem_cons_of_mem a hx)),
      h L a (List.mem_cons_self a t)]

theorem foldl_length_of_preserved {α β : Type} (f : List α → β → List α) (l : List β)
    (L : List α) (h : ∀ M x, x ∈ l → (f M x).length = M.length) :
    (l.foldl f L).length = L.length := by
  induction l generalizing L with
  | nil => rfl
  | cons a t ih =>
    simp only [List.foldl_cons]
    rw [ih (f L a) (fun M x hx => h M x (List.mem_cons_of_mem a hx)),
      h L a (List.mem_cons_self a t)]

theorem idx_inj {n i i' s s' : ℕ} (hi : i < n) (hi' : i' < n)
    (h : i + s * n = i' + s' * n) : i = i' ∧ s = s' := by
  have h1 : (i + s * n) % n = i := by
    rw [Nat.add_mul_mod_self_right, Nat.mod_eq_of_lt hi]
  have h2 : (i' + s' * n) % n = i' := by
    rw [Nat.add_mul_mod_self_right, Nat.mod_eq_of_lt hi']
  have hii : i = i' := by rw [← h1, ← h2, h]
  refine ⟨hii, ?_⟩
  have hn : 0 < n := Nat.pos_of_ne_zero (by omega)
  have h3 := h
  rw [hii] at h3
  have hs : s * n = s' * n := by omega
  exact Nat.eq_of_mul_eq_mul_right hn hs

theorem idx_lt {n m i s : ℕ} (hi : i < n) (hs : s < m) : i + s * n < n * m := by
  have h1 : i + s * n < (s + 1) * n := by
    simp [Nat.add_mul]
    omega
  have h2 : (s + 1) * n ≤ m * n := Nat.mul_le_mul_right n hs
  have h3 : m * n = n * m := Nat.mul_comm m n
  omega

theorem foldl_set_getD_mem {α : Type} (g : ℕ → ℕ) (w : ℕ → α) (ss : List ℕ)
    (L : List α) (s : ℕ) (hmem : s ∈ ss)
    (hinj : ∀ u ∈ ss, u ≠ s → g u ≠ g s) (hnodup : ss.Nodup)
    (hk : g s < L.length) (d : α) :
    (ss.foldl (fun M u => M.set (g u) (w u)) L).getD (g s) d = w s := by
  obtain ⟨l1, l2, rfl⟩ := List.append_of_mem hmem
  rw [List.foldl_append, List.foldl_cons]
  have hL1len : (l1.foldl (fun M u => M.set (g u) (w u)) L).length = L.length :=
    foldl_length_of_preserved _ _ _ (fun M x _ => List.length_set M (g x) (w x))
  have hs_not_l2 : s ∉ l2 := by
    rcases List.nodup_append.mp hnodup with ⟨-, hcons, -⟩
    exact (List.nodup_cons.mp hcons).1
  rw [foldl_getD_of_preserved _ _ _ _ _ (fun M u hu => by
    have hu_ne : u ≠ s := fun he => hs_not_l2 (he ▸ hu)
    exact getD_set_ne M (hinj u (by simp [hu]) hu_ne) (w u) d)]
  rw [getD_set_self _ (by rw [hL1len]; exact hk)]

theorem inner_fold_length {α : Type} (n m i' : ℕ) (w : ℕ → ℕ → α) (L : List α) :
    ((List.range m).foldl (fun M s' => M.set (i' + s' * n) (w i' s')) L).length =
      L.length :=
  foldl_length_of_preserved _ _ _ (fun M _ _ => List.length_set M _ _)

theorem nested_foldl_set_getD {α : Type} (n m : ℕ) (w : ℕ → ℕ → α) (z : List α)
    (i s : ℕ) (hi : i < n) (hs : s < m) (hlen : i + s * n < z.length) (d : α) :
    ((List.range n).foldl
      (fun L i' => (List.range m).foldl (fun M s' => M.set (i' + s' * n) (w i' s')) L)
      z).getD (i + s * n) d = w i s := by
  have hn : 0 < n := Nat.pos_of_ne_zero (by omega)
  obtain ⟨l1, l2, hsplit⟩ := List.append_of_mem (List.mem_range.mpr hi)
  have hnodup := List.nodup_range n
  rw [hsplit] at hnodup
  have hi_not_l2 : i ∉ l2 := by
    rcases List.nodup_append.mp hnodup with ⟨-, hcons, -⟩
    exact (List.nodup_cons.mp hcons).1
  have hl2_lt : ∀ j ∈ l2, j < n := fun j hj => by
    have : j ∈ List.range n := by
      rw [hsplit]
      exact List.mem_append.mpr (Or.inr (List.mem_cons_of_mem i hj))
    exact List.mem_range.mp this
  rw [hsplit, List.foldl_append, List.foldl_cons]
  set L1 := l1.foldl
    (fun L i' => (List.range m).foldl (fun M s' => M.set (i' + s' * n) (w i' s')) L) z
    with hL1
  have hL1len : L1.length = z.length :=
    foldl_length_of_preserved _ _ _ (fun M x _ => inner_fold_length n m x w M)
  rw [foldl_getD_of_preserved _ _ _ _ _ (fun M i' hi' => by
    refine foldl_getD_of_preserved _ _ _ _ _ (fun M2 s' hs' => ?_)
    refine getD_set_ne M2 (fun he => ?_) _ _
    have hii := (idx_inj (hl2_lt i' hi') hi he).1
    exact hi_not_l2 (hii ▸ hi'))]
  exact foldl_set_getD_mem (fun s' => i + s' * n) (fun s' => w i s') (List.range m) L1 s
    (List.mem_range.mpr hs)
    (fun u _ hu he => hu (idx_inj hi hi he).2)
    (List.nodup_range m)
    (by rw [hL1len]; exact hlen) d

theorem foldlM_eq_ok {β γ : Type} (f : β → γ → Except String β) (g : β → γ → β)
    (l : List γ) (b : β) (h : ∀ b' x, x ∈ l → f b' x = .ok (g b' x)) :
    l.foldlM f b = .ok (l.foldl g b) := by
  induction l generalizing b with
  | nil => rfl
  | cons a t ih =>
    rw [List.foldlM_cons, h b a (List.mem_cons_self a t)]
    show (List.foldlM f (g b a) t) = _
    rw [ih (g b a) (fun b' x hx => h b' x (List.mem_cons_of_mem a hx)), List.foldl_cons]

theorem getD_map_lt {α β : Type} (f : α → β) (l : List α) (i : ℕ) (hi : i < l.length)
    (d : β) (d2 : α) : (l.map f).getD i d = f (l.getD i d2) := by
  rw [List.getD_eq_getElem?_getD, List.getElem?_map, List.getElem?_eq_getElem hi,
    List.getD_eq_getElem?_getD, List.getElem?_eq_getElem hi]
  rfl

/-! Characterization of the vector build loop. -/

theorem getValue_eq_ok (s : ℕ) (peak : Peak) (st : ℕ) (opts : GetValueOptions)
    (hs : s < 4) (hst : st < 4) :
    getValue s peak st opts = .ok (getValueV s peak st opts) := by
  interval_cases st <;> interval_cases s <;> rfl

theorem foldl_four_split {α β : Type} (f1 f2 f3 f4 : List β → α → List β) (l : List α)
    (a1 a2 a3 a4 : List β) :
    l.foldl (fun acc x => (f1 acc.1 x, f2 acc.2.1 x, f3 acc.2.2.1 x, f4 acc.2.2.2 x))
        (a1, a2, a3, a4) =
      (l.foldl f1 a1, l.foldl f2 a2, l.foldl f3 a3, l.foldl f4 a4) := by
  induction l generalizing a1 a2 a3 a4 with
  | nil => rfl
  | cons a t ih => simp only [List.foldl_cons, ih]

theorem buildVectors_eq_grid (peaks : List Peak) (nbParams : ℕ) (opts : GetValueOptions)
    (hnb : nbParams ≤ 4) :
    buildVectors peaks nbParams opts = .ok
      (gridVec peaks.length nbParams (buildEntry peaks STATE_INIT opts),
       gridVec peaks.length nbParams (buildEntry peaks STATE_MIN opts),
       gridVec peaks.length nbParams (buildEntry peaks STATE_MAX opts),
       gridVec peaks.length nbParams (buildEntry peaks STATE_GRADIENT_DIFFERENCE opts)) := by
  unfold buildVectors gridVec
  rw [foldlM_eq_ok _
    (fun acc i => (List.range nbParams).foldl
      (fun acc s =>
        (acc.1.set (i + s * peaks.length) (buildEntry peaks STATE_INIT opts i s),
         acc.2.1.set (i + s * peaks.length) (buildEntry peaks STATE_MIN opts i s),
         acc.2.2.1.set (i + s * peaks.length) (buildEntry peaks STATE_MAX opts i s),
         acc.2.2.2.set (i + s * peaks.length)
           (buildEntry peaks STATE_GRADIENT_DIFFERENCE opts i s)))
      acc)
    _ _ ?_]
  · congr 1
    rw [List.foldl_ext]
    · exact foldl_four_split
        (fun M i => (List.range nbParams).foldl
          (fun M2 s => M2.set (i + s * peaks.length) (buildEntry peaks STATE_INIT opts i s)) M)
        (fun M i => (List.range nbParams).foldl
          (fun M2 s => M2.set (i + s * peaks.length) (buildEntry peaks STATE_MIN opts i s)) M)
        (fun M i => (List.range nbParams).foldl
          (fun M2 s => M2.set (i + s * peaks.length) (buildEntry peaks STATE_MAX opts i s)) M)
        (fun M i => (List.range nbParams).foldl
          (fun M2 s => M2.set (i + s * peaks.length)
            (buildEntry peaks STATE_GRADIENT_DIFFERENCE opts i s)) M)
        _ _ _ _ _
    · intro acc i _
      obtain ⟨acc1, acc2, acc3, acc4⟩ := acc
      exact foldl_four_split
        (fun M s => M.set (i + s * peaks.length) (buildEntry peaks STATE_INIT opts i s))
        (fun M s => M.set (i + s * peaks.length) (buildEntry peaks STATE_MIN opts i s))
        (fun M s => M.set (i + s * peaks.length) (buildEntry peaks STATE_MAX opts i s))
        (fun M s => M.set (i + s * peaks.length)
          (buildEntry peaks STATE_GRADIENT_DIFFERENCE opts i s))
        _ _ _ _ _
  · intro acc i _
    apply foldlM_eq_ok
    intro acc' s hsmem
    have hs4 : s < 4 := lt_of_lt_of_le (List.mem_range.mp hsmem) hnb
    rw [getValue_eq_ok s _ STATE_INIT opts hs4 (by norm_num [STATE_INIT]),
      getValue_eq_ok s _ STATE_MIN opts hs4 (by norm_num [STATE_MIN]),
      getValue_eq_ok s _ STATE_MAX opts hs4 (by norm_num [STATE_MAX]),
      getValue_eq_ok s _ STATE_GRADIENT_DIFFERENCE opts hs4
        (by norm_num [STATE_GRADIENT_DIFFERENCE])]
    rfl

theorem gridVec_length (n m : ℕ) (w : ℕ → ℕ → F64) : (gridVec n m w).length = n * m := by
  unfold gridVec
  rw [foldl_length_of_preserved _ _ _ (fun M x _ => inner_fold_length n m x w M),
    List.length_replicate]

theorem gridVec_getD (n m : ℕ) (w : ℕ → ℕ → F64) (i s : ℕ) (hi : i < n) (hs : s < m)
    (d : F64) : (gridVec n m w).getD (i + s * n) d = w i s := by
  unfold gridVec
  exact nested_foldl_set_getD n m w _ i s hi hs
    (by rw [List.length_replicate]; exact idx_lt hi hs) d

/-! Characterization of the decode loop. -/

theorem decodeLoop_invariant (pv : List F64) (peaks : List Peak) (nbParams : ℕ)
    (maxY : F64) (j : ℕ) (hj : j ≤ peaks.length) :
    ((List.range j).foldl
      (fun st i =>
        let pv2 := st.1.set (i + peaks.length)
          (st.1.getD (i + peaks.length) F64.nan * maxY)
        let pk := (List.range nbParams).foldl
          (fun p s => setKey p s (pv2.getD (i + s * peaks.length) F64.nan))
          (st.2.getD i defaultPeak)
        (pv2, st.2.set i pk))
      (pv, peaks)).1.length = pv.length ∧
    ((List.range j).foldl
      (fun st i =>
        let pv2 := st.1.set (i + peaks.length)
          (st.1.getD (i + peaks.length) F64.nan * maxY)
        let pk := (List.range nbParams).foldl
          (fun p s => setKey p s (pv2.getD (i + s * peaks.length) F64.nan))
          (st.2.getD i defaultPeak)
        (pv2, st.2.set i pk))
      (pv, peaks)).2.length = peaks.length ∧
    (∀ k, (peaks.length ≤ k ∧ k < peaks.length + j →
        ((List.range j).foldl
          (fun st i =>
            let pv2 := st.1.set (i + peaks.length)
              (st.1.getD (i + peaks.length) F64.nan * maxY)
            let pk := (List.range nbParams).foldl
              (fun p s => setKey p s (pv2.getD (i + s * peaks.length) F64.nan))
              (st.2.getD i defaultPeak)
            (pv2, st.2.set i pk))
          (pv, peaks)).1.getD k F64.nan = pv.getD k F64.nan * maxY) ∧
      (¬(peaks.length ≤ k ∧ k < peaks.length + j) →
        ((List.range j).foldl
          (fun st i =>
            let pv2 := st.1.set (i + peaks.length)
              (st.1.getD (i + peaks.length) F64.nan * maxY)
            let pk := (List.range nbParams).foldl
              (fun p s => setKey p s (pv2.getD (i + s * peaks.length) F64.nan))
              (st.2.getD i defaultPeak)
            (pv2, st.2.set i pk))
          (pv, peaks)).1.getD k F64.nan = pv.getD k F64.nan)) ∧
    (∀ k, (k < j →
        ((List.range j).foldl
          (fun st i =>
            let pv2 := st.1.set (i + peaks.length)
              (st.1.getD (i + peaks.length) F64.nan * maxY)
            let pk := (List.range nbParams).foldl
              (fun p s => setKey p s (pv2.getD (i + s * peaks.length) F64.nan))
              (st.2.getD i defaultPeak)
            (pv2, st.2.set i pk))
          (pv, peaks)).2.getD k defaultPeak =
          decodedPeak pv peaks.length nbParams maxY (peaks.getD k defaultPeak) k) ∧
      (j ≤ k →
        ((List.range j).foldl
          (fun st i =>
            let pv2 := st.1.set (i + peaks.length)
              (st.1.getD (i + peaks.length) F64.nan * maxY)
            let pk := (List.range nbParams).foldl
              (fun p s => setKey p s (pv2.getD (i + s * peaks.length) F64.nan))
              (st.2.getD i defaultPeak)
            (pv2, st.2.set i pk))
          (pv, peaks)).2.getD k defaultPeak = peaks.getD k defaultPeak)) := by
  induction j with
  | zero => exact ⟨rfl, rfl, fun k => ⟨fun h => by omega, fun _ => rfl⟩,
      fun k => ⟨fun h => by omega, fun _ => rfl⟩⟩
  | succ j ih =>
    have hj' : j ≤ peaks.length := Nat.le_of_succ_le hj
    have hjn : j < peaks.length := hj
    obtain ⟨ih1, ih2, ih3, ih4⟩ := ih hj'
    rw [List.range_succ, List.foldl_append, List.foldl_cons, List.foldl_nil]
    set n := peaks.length with hn
    set stj := (List.range j).foldl
      (fun st i =>
        let pv2 := st.1.set (i + peaks.length)
          (st.1.getD (i + peaks.length) F64.nan * maxY)
        let pk := (List.range nbParams).foldl
          (fun p s => setKey p s (pv2.getD (i + s * peaks.length) F64.nan))
          (st.2.getD i defaultPeak)
        (pv2, st.2.set i pk))
      (pv, peaks) with hstj
    have hread : stj.1.getD (j + n) F64.nan = pv.getD (j + n) F64.nan :=
      (ih3 (j + n)).2 (by omega)
    have hpv2 : ∀ k,
        (n ≤ k ∧ k < n + (j + 1) →
          (stj.1.set (j + n) (stj.1.getD (j + n) F64.nan * maxY)).getD k F64.nan =
            pv.getD k F64.nan * maxY) ∧
        (¬(n ≤ k ∧ k < n + (j + 1)) →
          (stj.1.set (j + n) (stj.1.getD (j + n) F64.nan * maxY)).getD k F64.nan =
            pv.getD k F64.nan) := by
      intro k
      constructor
      · intro hk
        by_cases hkj : k = j + n
        · rw [hkj]
          by_cases hklen : j + n < stj.1.length
          · rw [getD_set_self _ hklen, hread]
          · rw [List.set_eq_of_length_le (by omega)]
            have hoob : stj.1.getD (j + n) F64.nan = F64.nan :=
              List.getD_eq_default _ _ (by omega)
            have hoob2 : pv.getD (j + n) F64.nan = F64.nan :=
              List.getD_eq_default _ _ (by rw [← ih1]; omega)
            rw [hoob, hoob2]
            exact (nan_mul maxY).symm
        · rw [getD_set_ne _ (fun h => hkj h.symm)]
          exact (ih3 k).1 (by omega)
      · intro hk
        have hkj : k ≠ j + n := by omega
        rw [getD_set_ne _ (fun h => hkj h.symm)]
        exact (ih3 k).2 (by omega)
    refine ⟨?_, ?_, ?_, ?_⟩
    · simp only [List.length_set]
      exact ih1
    · simp only [List.length_set]
      exact ih2
    · exact hpv2
    · intro k
      constructor
      · intro hk
        by_cases hkj : k = j
        · rw [hkj]
          rw [getD_set_self _ (by rw [ih2]; exact hjn)]
          have hbase : stj.2.getD j defaultPeak = peaks.getD j defaultPeak :=
            (ih4 j).2 (by omega)
          rw [hbase]
          unfold decodedPeak
          apply List.foldl_ext
          intro q s hsmem
          congr 1
          by_cases hs1 : s = 1
          · rw [hs1]
            simp only [one_mul, if_pos rfl]
            exact (hpv2 (j + n)).1 (by omega)
          · rw [if_neg hs1]
            rcases Nat.lt_or_ge s 2 with hs2 | hs2
            · have hs0 : s = 0 := by omega
              rw [hs0]
              simp only [Nat.zero_mul, Nat.add_zero]
              exact (hpv2 j).2 (by omega)
            · have h2n : 2 * n ≤ s * n := Nat.mul_le_mul_right n hs2
              exact (hpv2 (j + s * n)).2 (by omega)
        · rw [getD_set_ne _ (show j ≠ k from fun h => hkj h.symm)]
          exact (ih4 k).1 (by omega)
      · intro hk
        rw [getD_set_ne _ (show j ≠ k by omega)]
        exact (ih4 k).2 (by omega)

theorem decodeLoop_getD (pv : List F64) (peaks : List Peak) (nbParams : ℕ) (maxY : F64)
    (i : ℕ) (hi : i < peaks.length) :
    (decodeLoop pv peaks nbParams maxY).2.getD i defaultPeak =
      decodedPeak pv peaks.length nbParams maxY (peaks.getD i defaultPeak) i :=
  ((decodeLoop_invariant pv peaks nbParams maxY peaks.length (le_refl _)).2.2.2 i).1 hi

theorem decodeLoop_sndLength (pv : List F64) (peaks : List Peak) (nbParams : ℕ)
    (maxY : F64) : (decodeLoop pv peaks nbParams maxY).2.length = peaks.length :=
  (decodeLoop_invariant pv peaks nbParams maxY peaks.length (le_refl _)).2.1

theorem decodedPeak_three (pv : List F64) (n : ℕ) (maxY : F64) (p : Peak) (i : ℕ) :
    decodedPeak pv n 3 maxY p i =
      { p with x := pv.getD i F64.nan, y := pv.getD (i + n) F64.nan * maxY,
               width := pv.getD (i + 2 * n) F64.nan } := by
  simp [decodedPeak, show (List.range 3) = [0, 1, 2] from rfl, setKey]

theorem decodedPeak_four (pv : List F64) (n : ℕ) (maxY : F64) (p : Peak) (i : ℕ) :
    decodedPeak pv n 4 maxY p i =
      { p with x := pv.getD i F64.nan, y := pv.getD (i + n) F64.nan * maxY,
               width := pv.getD (i + 2 * n) F64.nan,
               mu := some (pv.getD (i + 3 * n) F64.nan) } := by
  simp [decodedPeak, show (List.range 4) = [0, 1, 2, 3] from rfl, setKey]

/-! Inversion of `checkInput` and evaluation of `optimize` under the identity
solver. -/

theorem checkInput_ok {data : DataInput} {options : Options} {ci : CheckedInput}
    (h : checkInput data options = .ok ci) :
    (ci.nbParams = 3 ∨ ci.nbParams = 4) ∧
    ci.getValueOptions.maxY = ci.maxY ∧
    getMaxValue data.y = .ok ci.maxY ∧
    ci.optimization.kind = options.optimizationKind.getD "lm" ∧
    ci.getValueOptions.yGradientDifference =
      options.yGradientDifference.getD (.val (F64.num (1/1000))) ∧
    ci.getValueOptions.muGradientDifference =
      options.muGradientDifference.getD (.val (F64.num (1/100))) := by
  unfold checkInput at h
  simp only [bind, Except.bind] at h
  split at h
  · split at h
    · simp at h
    · rename_i v heq
      rw [Except.ok.injEq] at h
      subst h
      exact ⟨Or.inl rfl, rfl, heq, rfl, rfl, rfl⟩
  · split at h
    · simp at h
    · rename_i v heq
      rw [Except.ok.injEq] at h
      subst h
      exact ⟨Or.inl rfl, rfl, heq, rfl, rfl, rfl⟩
  · split at h
    · simp at h
    · rename_i v heq
      rw [Except.ok.injEq] at h
      subst h
      exact ⟨Or.inr rfl, rfl, heq, rfl, rfl, rfl⟩
  · simp at h

theorem optimizeCore_identity (ext : Externals) (data : DataInput) (peaks : List Peak)
    (options : Options) (ci : CheckedInput)
    (hci : checkInput data options = .ok ci)
    (hnb : ci.nbParams ≤ 4) (hlm : ci.optimization.kind = "lm") :
    optimizeCore ext identitySolver data peaks options = .ok
      { error := F64.num 0, iterations := 0
        peaks := (decodeLoop
          (gridVec (peaks.map jsonCopy).length ci.nbParams
            (buildEntry (peaks.map jsonCopy) STATE_INIT ci.getValueOptions))
          (peaks.map jsonCopy) ci.nbParams ci.maxY).2 } := by
  have hsel : selectMethod identitySolver ci.optimization = .ok (identitySolver, {}) := by
    unfold selectMethod
    rw [hlm]
    rfl
  simp only [optimizeCore, bind, Except.bind, hci,
    buildVectors_eq_grid (peaks.map jsonCopy) ci.nbParams ci.getValueOptions hnb,
    hsel, identitySolver]

/-! Summation lemma for the shape constructors. -/

theorem foldl_add_eq_sum (f : ℕ → F64) (l : List ℕ) (a : F64) :
    l.foldl (fun r i => r + f i) a = a + (l.map f).sum := by
  induction l generalizing a with
  | nil => exact (f64_add_zero a).symm
  | cons x t ih =>
    rw [List.foldl_cons, ih (a + f x), List.map_cons, List.sum_cons, f64_add_assoc]

/-! The claims. -/

/-- Claim C1 (amended): for every peak list, supported shape kind, default
(`lm`) method, spectrum with finite nonzero `max(y)`, all four flat vectors
place the value for parameter kind `s` of peak `i` at flat index
`i + s * nbPeaks` (each entry is the stored result of the corresponding
`getValue` call), and running `optimize` with an identity solver reproduces
every input peak's `x`, `y` and `width` exactly (`y` after the decode loop
multiplied the height batch by the original `max(y)`), and reproduces `mu`
provided the input `mu`, when present, is a nonzero number (a `mu` of `0` is
falsy and is replaced by the default `0.5`, see C10). -/
theorem c1_layout_identity_roundtrip (ext : Externals) (data : DataInput)
    (peaks : List Peak) (options : Options) (ci : CheckedInput) (m : ℚ)
    (hci : checkInput data options = .ok ci)
    (hlm : options.optimizationKind.getD "lm" = "lm")
    (hmax : ci.maxY = F64.num m) (hm : m ≠ 0) :
    ∃ res, optimizeCore ext identitySolver data peaks options = .ok res ∧
      (∃ pI pMn pMx pG,
        buildVectors (peaks.map jsonCopy) ci.nbParams ci.getValueOptions =
          .ok (pI, pMn, pMx, pG) ∧
        ∀ i, i < peaks.length → ∀ s, s < ci.nbParams →
          (∀ v, getValue s ((peaks.map jsonCopy).getD i defaultPeak) STATE_INIT
              ci.getValueOptions = .ok v →
              pI.getD (i + s * peaks.length) F64.nan = toFloat v) ∧
          (∀ v, getValue s ((peaks.map jsonCopy).getD i defaultPeak) STATE_MIN
              ci.getValueOptions = .ok v →
              pMn.getD (i + s * peaks.length) F64.nan = toFloat v) ∧
          (∀ v, getValue s ((peaks.map jsonCopy).getD i defaultPeak) STATE_MAX
              ci.getValueOptions = .ok v →
              pMx.getD (i + s * peaks.length) F64.nan = toFloat v) ∧
          (∀ v, getValue s ((peaks.map jsonCopy).getD i defaultPeak)
              STATE_GRADIENT_DIFFERENCE ci.getValueOptions = .ok v →
              pG.getD (i + s * peaks.length) F64.nan = toFloat v)) ∧
      res.peaks.length = peaks.length ∧
      ∀ i, i < peaks.length →
        (res.peaks.getD i defaultPeak).x = (peaks.getD i defaultPeak).x ∧
        (res.peaks.getD i defaultPeak).width = (peaks.getD i defaultPeak).width ∧
        (∀ b : ℚ, (peaks.getD i defaultPeak).y = F64.num b →
          (res.peaks.getD i defaultPeak).y = F64.num b) ∧
        (∀ c : ℚ, (peaks.getD i defaultPeak).mu = some (F64.num c) → c ≠ 0 →
          (res.peaks.getD i defaultPeak).mu = some (F64.num c)) := by
  obtain ⟨hnb34, hgvo, hmaxval, hkind, -, -⟩ := checkInput_ok hci
  have hnb : ci.nbParams ≤ 4 := by rcases hnb34 with h | h <;> omega
  have hnb2 : 2 ≤ ci.nbParams := by rcases hnb34 with h | h <;> omega
  have hlm2 : ci.optimization.kind = "lm" := by rw [hkind, hlm]
  have hopt := optimizeCore_identity ext data peaks options ci hci hnb hlm2
  have hnC : (peaks.map jsonCopy).length = peaks.length := List.length_map peaks jsonCopy
  refine ⟨_, hopt, ?_, ?_, ?_⟩
  · refine ⟨_, _, _, _, buildVectors_eq_grid (peaks.map jsonCopy) ci.nbParams
      ci.getValueOptions hnb, ?_⟩
    intro i hi s hs
    have hiC : i < (peaks.map jsonCopy).length := by omega
    refine ⟨?_, ?_, ?_, ?_⟩ <;> intro v hv
    · have he := getValue_eq_ok s ((peaks.map jsonCopy).getD i defaultPeak)
        STATE_INIT ci.getValueOptions (by omega) (by norm_num [STATE_INIT])
      rw [hv] at he
      have hve : v = getValueV s ((peaks.map jsonCopy).getD i defaultPeak)
        STATE_INIT ci.getValueOptions := by rw [Except.ok.injEq] at he; exact he
      rw [← hnC]
      rw [gridVec_getD (peaks.map jsonCopy).length ci.nbParams _ i s hiC hs F64.nan]
      rw [hve]
      rfl
    · have he := getValue_eq_ok s ((peaks.map jsonCopy).getD i defaultPeak)
        STATE_MIN ci.getValueOptions (by omega) (by norm_num [STATE_MIN])
      rw [hv] at he
      have hve : v = getValueV s ((peaks.map jsonCopy).getD i defaultPeak)
        STATE_MIN ci.getValueOptions := by rw [Except.ok.injEq] at he; exact he
      rw [← hnC]
      rw [gridVec_getD (peaks.map jsonCopy).length ci.nbParams _ i s hiC hs F64.nan]
      rw [hve]
      rfl
    · have he := getValue_eq_ok s ((peaks.map jsonCopy).getD i defaultPeak)
        STATE_MAX ci.getValueOptions (by omega) (by norm_num [STATE_MAX])
      rw [hv] at he
      have hve : v = getValueV s ((peaks.map jsonCopy).getD i defaultPeak)
        STATE_MAX ci.getValueOptions := by rw [Except.ok.injEq] at he; exact he
      rw [← hnC]
      rw [gridVec_getD (peaks.map jsonCopy).length ci.nbParams _ i s hiC hs F64.nan]
      rw [hve]
      rfl
    · have he := getValue_eq_ok s ((peaks.map jsonCopy).getD i defaultPeak)
        STATE_GRADIENT_DIFFERENCE ci.getValueOptions (by omega)
        (by norm_num [STATE_GRADIENT_DIFFERENCE])
      rw [hv] at he
      have hve : v = getValueV s ((peaks.map jsonCopy).getD i defaultPeak)
        STATE_GRADIENT_DIFFERENCE ci.getValueOptions := by
        rw [Except.ok.injEq] at he; exact he
      rw [← hnC]
      rw [gridVec_getD (peaks.map jsonCopy).length ci.nbParams _ i s hiC hs F64.nan]
      rw [hve]
      rfl
  · simp only [decodeLoop_sndLength, hnC]
  · intro i hi
    have hiC : i < (peaks.map jsonCopy).length := by omega
    have hdec := decodeLoop_getD
      (gridVec (peaks.map jsonCopy).length ci.nbParams
        (buildEntry (peaks.map jsonCopy) STATE_INIT ci.getValueOptions))
      (peaks.map jsonCopy) ci.nbParams ci.maxY i hiC
    have hpkC : (peaks.map jsonCopy).getD i defaultPeak =
        jsonCopy (peaks.getD i defaultPeak) :=
      getD_map_lt jsonCopy peaks i (by omega) defaultPeak defaultPeak
    have e0 : (gridVec (peaks.map jsonCopy).length ci.nbParams
        (buildEntry (peaks.map jsonCopy) STATE_INIT ci.getValueOptions)).getD i F64.nan =
        buildEntry (peaks.map jsonCopy) STATE_INIT ci.getValueOptions i 0 := by
      have := gridVec_getD (peaks.map jsonCopy).length ci.nbParams
        (buildEntry (peaks.map jsonCopy) STATE_INIT ci.getValueOptions) i 0 hiC
        (by omega) F64.nan
      simpa using this
    have e1 : (gridVec (peaks.map jsonCopy).length ci.nbParams
        (buildEntry (peaks.map jsonCopy) STATE_INIT ci.getValueOptions)).getD
          (i + (peaks.map jsonCopy).length) F64.nan =
        buildEntry (peaks.map jsonCopy) STATE_INIT ci.getValueOptions i 1 := by
      have := gridVec_getD (peaks.map jsonCopy).length ci.nbParams
        (buildEntry (peaks.map jsonCopy) STATE_INIT ci.getValueOptions) i 1 hiC
        (by omega) F64.nan
      simpa using this
    have e2 : (gridVec (peaks.map jsonCopy).length ci.nbParams
        (buildEntry (peaks.map jsonCopy) STATE_INIT ci.getValueOptions)).getD
          (i + 2 * (peaks.map jsonCopy).length) F64.nan =
        buildEntry (peaks.map jsonCopy) STATE_INIT ci.getValueOptions i 2 := by
      have := gridVec_getD (peaks.map jsonCopy).length ci.nbParams
        (buildEntry (peaks.map jsonCopy) STATE_INIT ci.getValueOptions) i 2 hiC
        (by omega) F64.nan
      rw [Nat.mul_comm 2 (peaks.map jsonCopy).length] at this ⊢
      simpa using this
    have hb0 : buildEntry (peaks.map jsonCopy) STATE_INIT ci.getValueOptions i 0 =
        (peaks.getD i defaultPeak).x := by
      unfold buildEntry
      rw [hpkC]
      rfl
    have hb1 : buildEntry (peaks.map jsonCopy) STATE_INIT ci.getValueOptions i 1 =
        (peaks.getD i defaultPeak).y / F64.num m := by
      unfold buildEntry
      rw [hpkC]
      show ((jsonCopy (peaks.getD i defaultPeak)).y / ci.getValueOptions.maxY) = _
      rw [hgvo, hmax]
      rfl
    have hb2 : buildEntry (peaks.map jsonCopy) STATE_INIT ci.getValueOptions i 2 =
        (peaks.getD i defaultPeak).width := by
      unfold buildEntry
      rw [hpkC]
      rfl
    rcases hnb34 with h3 | h4
    · rw [h3] at hdec e0 e1 e2
      rw [decodedPeak_three] at hdec
      refine ⟨?_, ?_, ?_, ?_⟩
      · rw [h3, hdec]
        simp only [e0, hb0]
      · rw [h3, hdec]
        simp only [e2, hb2]
      · intro b hb
        rw [h3, hdec]
        simp only [e1, hb1, hmax, hb]
        simp [if_neg hm, div_mul_cancel₀ b hm]
      · intro c hc hc0
        rw [h3, hdec]
        simp only [hpkC]
        show (jsonCopy (peaks.getD i defaultPeak)).mu = _
        show (peaks.getD i defaultPeak).mu = _
        rw [hc]
    · rw [h4] at hdec e0 e1 e2
      rw [decodedPeak_four] at hdec
      refine ⟨?_, ?_, ?_, ?_⟩
      · rw [h4, hdec]
        simp only [e0, hb0]
      · rw [h4, hdec]
        simp only [e2, hb2]
      · intro b hb
        rw [h4, hdec]
        simp only [e1, hb1, hmax, hb]
        simp [if_neg hm, div_mul_cancel₀ b hm]
      · intro c hc hc0
        rw [h4, hdec]
        have e3 : (gridVec (peaks.map jsonCopy).length 4
            (buildEntry (peaks.map jsonCopy) STATE_INIT ci.getValueOptions)).getD
              (i + 3 * (peaks.map jsonCopy).length) F64.nan =
            buildEntry (peaks.map jsonCopy) STATE_INIT ci.getValueOptions i 3 := by
          have := gridVec_getD (peaks.map jsonCopy).length 4
            (buildEntry (peaks.map jsonCopy) STATE_INIT ci.getValueOptions) i 3
            (by omega) (by omega) F64.nan
          rw [Nat.mul_comm 3 (peaks.map jsonCopy).length] at this ⊢
          simpa using this
        simp only [e3]
        have hb3 : buildEntry (peaks.map jsonCopy) STATE_INIT ci.getValueOptions i 3 =
            jsOr (peaks.getD i defaultPeak).mu (F64.num (1/2)) := by
          unfold buildEntry
          rw [hpkC]
          rfl
        rw [hb3, hc]
        simp [jsOr, if_neg hc0]

/-- Witness for C1: the amended round-trip theorem applied to the test peak
`{x: 0, y: 1, width: 2}` over the test spectrum (whose `max(y)` is `2`),
with every hypothesis discharged concretely. -/
theorem c1_layout_identity_roundtrip_witness :
    checkInput dataA {} = .ok ciA ∧
    (({} : Options).optimizationKind.getD "lm" = "lm") ∧
    ciA.maxY = F64.num 2 ∧ (2 : ℚ) ≠ 0 ∧
    (∃ res, optimizeCore extW identitySolver dataA [peakA] {} = .ok res ∧
      (∃ pI pMn pMx pG,
        buildVectors ([peakA].map jsonCopy) ciA.nbParams ciA.getValueOptions =
          .ok (pI, pMn, pMx, pG) ∧
        ∀ i, i < [peakA].length → ∀ s, s < ciA.nbParams →
          (∀ v, getValue s (([peakA].map jsonCopy).getD i defaultPeak) STATE_INIT
              ciA.getValueOptions = .ok v →
              pI.getD (i + s * [peakA].length) F64.nan = toFloat v) ∧
          (∀ v, getValue s (([peakA].map jsonCopy).getD i defaultPeak) STATE_MIN
              ciA.getValueOptions = .ok v →
              pMn.getD (i + s * [peakA].length) F64.nan = toFloat v) ∧
          (∀ v, getValue s (([peakA].map jsonCopy).getD i defaultPeak) STATE_MAX
              ciA.getValueOptions = .ok v →
              pMx.getD (i + s * [peakA].length) F64.nan = toFloat v) ∧
          (∀ v, getValue s (([peakA].map jsonCopy).getD i defaultPeak)
              STATE_GRADIENT_DIFFERENCE ciA.getValueOptions = .ok v →
              pG.getD (i + s * [peakA].length) F64.nan = toFloat v)) ∧
      res.peaks.length = [peakA].length ∧
      ∀ i, i < [peakA].length →
        (res.peaks.getD i defaultPeak).x = ([peakA].getD i defaultPeak).x ∧
        (res.peaks.getD i defaultPeak).width = ([peakA].getD i defaultPeak).width ∧
        (∀ b : ℚ, ([peakA].getD i defaultPeak).y = F64.num b →
          (res.peaks.getD i defaultPeak).y = F64.num b) ∧
        (∀ c : ℚ, ([peakA].getD i defaultPeak).mu = some (F64.num c) → c ≠ 0 →
          (res.peaks.getD i defaultPeak).mu = some (F64.num c))) := by
  have h1 : checkInput dataA {} = .ok ciA := by
    norm_num [checkInput, getMaxValue, dataA, ciA, gvoA, bind, Except.bind]
  exact ⟨h1, rfl, rfl, by norm_num,
    c1_layout_identity_roundtrip extW dataA [peakA] {} ciA 2 h1 rfl rfl (by norm_num)⟩

/-- Counterexample for C1 as stated: with the pseudo-Voigt shape and the
identity solver, a peak whose `mu` field is `0` comes back with `mu = 0.5`
(the falsy `0` falls to the default), and with an all-zero spectrum
(`max(y) = 0`) a zero-height peak comes back with `y = NaN`; in both runs the
original value is not reproduced. -/
theorem c1_mu_zero_counterexample :
    pkMu0.mu = some (F64.num 0) ∧
    (match optimizeCore extW identitySolver dataA [pkMu0]
        { shapeKind := some "pseudovoigt" } with
      | .ok r => (r.peaks.getD 0 defaultPeak).mu
      | .error _ => none) = some (F64.num (1/2)) ∧
    (some (F64.num (1/2)) : Option F64) ≠ some (F64.num 0) ∧
    pkY0.y = F64.num 0 ∧
    (match optimizeCore extW identitySolver dataZeroY [pkY0] {} with
      | .ok r => (r.peaks.getD 0 defaultPeak).y
      | .error _ => F64.num 0) = F64.nan ∧
    F64.nan ≠ F64.num 0 := by
  refine ⟨rfl, ?_, by norm_num, rfl, ?_, by decide⟩
  · norm_num [optimizeCore, checkInput, getMaxValue, buildVectors, getValue, jsOr,
      toFloat, jsonCopy, jsonNumOpt, decodeLoop, setKey, selectMethod, identitySolver,
      paramsFuncOf, STATE_INIT, STATE_MIN, STATE_MAX, STATE_GRADIENT_DIFFERENCE,
      dataA, pkMu0, extW, bind, Except.bind, pure, Except.pure,
      List.replicate_succ, List.set_cons_zero, List.set_cons_succ,
      List.getElem?_cons_zero, List.getElem?_cons_succ,
      show List.range 0 = [] from rfl, show List.range 1 = [0] from rfl,
      show List.range 2 = [0, 1] from rfl,
      show List.range 3 = [0, 1, 2] from rfl,
      show List.range 4 = [0, 1, 2, 3] from rfl,
      List.foldlM_cons, List.foldlM_nil, List.getD_cons_zero, List.getD_cons_succ]
  · norm_num [optimizeCore, checkInput, getMaxValue, buildVectors, getValue, jsOr,
      toFloat, jsonCopy, jsonNumOpt, decodeLoop, setKey, selectMethod, identitySolver,
      paramsFuncOf, STATE_INIT, STATE_MIN, STATE_MAX, STATE_GRADIENT_DIFFERENCE,
      dataZeroY, pkY0, extW, bind, Except.bind, pure, Except.pure,
      List.replicate_succ, List.set_cons_zero, List.set_cons_succ,
      List.getElem?_cons_zero, List.getElem?_cons_succ,
      show List.range 0 = [] from rfl, show List.range 1 = [0] from rfl,
      show List.range 2 = [0, 1] from rfl,
      show List.range 3 = [0, 1, 2] from rfl,
      show List.range 4 = [0, 1, 2, 3] from rfl,
      List.foldlM_cons, List.foldlM_nil, List.getD_cons_zero, List.getD_cons_succ]

/-- Claim C2: for the peak `{x: 0, y: 1, width: 2}` under default options, the
resolved lower/upper position bounds are `-4`/`4` (`x ∓ width·2`) and the
lower/upper width bounds are `0.5`/`8` (`width·0.25` and `width·4`). -/
theorem c2_default_bounds :
    ∃ ci, checkInput dataA {} = .ok ci ∧
      getValue 0 peakA STATE_MIN ci.getValueOptions = .ok (.val (F64.num (-4))) ∧
      getValue 0 peakA STATE_MAX ci.getValueOptions = .ok (.val (F64.num 4)) ∧
      getValue 2 peakA STATE_MIN ci.getValueOptions = .ok (.val (F64.num (1/2))) ∧
      getValue 2 peakA STATE_MAX ci.getValueOptions = .ok (.val (F64.num 8)) := by
  refine ⟨ciA, ?_, ?_, ?_, ?_, ?_⟩
  · norm_num [checkInput, getMaxValue, dataA, ciA, gvoA, bind, Except.bind]
  · norm_num [getValue, STATE_MIN, peakA, ciA, gvoA]
  · norm_num [getValue, STATE_MAX, peakA, ciA, gvoA]
  · norm_num [getValue, STATE_MIN, peakA, ciA, gvoA]
  · norm_num [getValue, STATE_MAX, peakA, ciA, gvoA]

/-- Claim C3: at the reference level, `optimize` deep-copies the peak list
before writing any fitted value: whatever the solver and inputs, the caller's
heap prefix is returned byte-for-byte unchanged, and every peak reference in
the result points at a freshly allocated object (an index at or beyond the
original heap's end), never at a caller object. -/
theorem c3_heap_not_aliased (ext : Externals) (lm : Solver) (data : DataInput)
    (heap : List Peak) (peakIds : List ℕ) (options : Options) :
    (optimizeHeap ext lm data heap peakIds options).1.take heap.length = heap ∧
    (∀ r, (optimizeHeap ext lm data heap peakIds options).2 = .ok r →
      ∀ id ∈ r.peakIds, heap.length ≤ id) := by
  unfold optimizeHeap
  cases hoc : optimizeCore ext lm data
      (peakIds.map fun id => heap.getD id defaultPeak) options with
  | error e =>
    refine ⟨List.take_length heap, ?_⟩
    intro r h
    simp at h
  | ok r0 =>
    refine ⟨List.take_left heap r0.peaks, ?_⟩
    intro r h
    rw [Except.ok.injEq] at h
    subst h
    intro id hid
    exact (List.mem_range'_1.mp hid).1

/-- Witness for C3: a concrete run with the identity solver over a one-object
heap; the heap prefix is preserved and the returned reference (index 1) lies
beyond the caller's object (index 0). -/
theorem c3_heap_not_aliased_witness :
    (optimizeHeap extW identitySolver dataA [peakA] [0] {}).1.take 1 = [peakA] ∧
    (1 : ℕ) ≤ 1 := by
  have hok : (optimizeHeap extW identitySolver dataA [peakA] [0] {}).2 = .ok rW := by
    norm_num [optimizeHeap, optimizeCore, checkInput, getMaxValue, buildVectors,
      getValue, jsOr, toFloat, jsonCopy, jsonNumOpt, decodeLoop, setKey, selectMethod,
      identitySolver, paramsFuncOf, STATE_INIT, STATE_MIN, STATE_MAX,
      STATE_GRADIENT_DIFFERENCE, dataA, peakA, extW, rW, bind, Except.bind, pure,
      Except.pure, List.replicate_succ, List.set_cons_zero, List.set_cons_succ,
      List.getElem?_cons_zero, List.getElem?_cons_succ,
      show List.range 0 = [] from rfl, show List.range 1 = [0] from rfl,
      show List.range 2 = [0, 1] from rfl,
      show List.range 3 = [0, 1, 2] from rfl,
      show List.range 4 = [0, 1, 2, 3] from rfl,
      show List.range' 1 1 = [1] from rfl,
      List.foldlM_cons, List.foldlM_nil, List.getD_cons_zero, List.getD_cons_succ]
  have h := c3_heap_not_aliased extW identitySolver dataA [peakA] [0] {}
  exact ⟨h.1, h.2 rW hok 1 (by decide)⟩

/-- Claim C4: for every unrecognized shape kind, `optimize` fails with the
configuration error before the solver entry point is invoked (the result does
not depend on the solver at all), and at the reference level the caller's heap
is returned completely unchanged. -/
theorem c4_unsupported_kind_rejected (ext : Externals) (lm : Solver) (data : DataInput)
    (peaks heap : List Peak) (peakIds : List ℕ) (options : Options) (k : String)
    (hk : options.shapeKind = some k)
    (h1 : k ≠ "gaussian") (h2 : k ≠ "lorentzian") (h3 : k ≠ "pseudovoigt") :
    optimizeCore ext lm data peaks options = .error "kind of shape is not supported" ∧
    optimizeHeap ext lm data heap peakIds options =
      (heap, .error "kind of shape is not supported") := by
  have hchk : ∀ d : DataInput,
      checkInput d options = .error "kind of shape is not supported" := by
    intro d
    unfold checkInput
    simp only [bind, Except.bind, hk, Option.getD_some]
  have hcore : ∀ ps : List Peak,
      optimizeCore ext lm data ps options = .error "kind of shape is not supported" := by
    intro ps
    simp only [optimizeCore, bind, Except.bind, hchk data]
  refine ⟨hcore peaks, ?_⟩
  unfold optimizeHeap
  rw [hcore (peakIds.map fun id => heap.getD id defaultPeak)]

/-- Witness for C4: the kind `"triangular"` is rejected with the exact error,
with no heap mutation, under the identity solver. -/
theorem c4_unsupported_kind_rejected_witness :
    (({ shapeKind := some "triangular" } : Options).shapeKind = some "triangular") ∧
    ("triangular" ≠ "gaussian") ∧ ("triangular" ≠ "lorentzian") ∧
    ("triangular" ≠ "pseudovoigt") ∧
    (optimizeCore extW identitySolver dataA [peakA] { shapeKind := some "triangular" } =
        .error "kind of shape is not supported" ∧
      optimizeHeap extW identitySolver dataA [peakA] [0]
          { shapeKind := some "triangular" } =
        ([peakA], .error "kind of shape is not supported")) :=
  ⟨rfl, by decide, by decide, by decide,
    c4_unsupported_kind_rejected extW identitySolver dataA [peakA] [peakA] [0]
      { shapeKind := some "triangular" } "triangular" rfl
      (by decide) (by decide) (by decide)⟩

/-- Claim C5 (amended): each gradient-step value resolves in the order
per-peak field → per-kind option → built-in default (`width/2000` for position
and width; the y and mu defaults `1e-3` and `0.01` are filled in by
`checkInput` when the options are absent).  Overrides are used as raw values
without being invoked: a function-valued option override is returned as-is by
`getValue` and coerces to NaN when stored into the `Float64Array`, and a
function-valued per-peak field is dropped by the JSON deep copy, so resolution
falls through to the next layer; no override function is ever called at build
time. -/
theorem c5_gradient_resolution_amended :
    (∀ (peak : Peak) (gvo : GetValueOptions) (v : JSVal),
      peak.xGradientDifference = some v →
      getValue 0 peak STATE_GRADIENT_DIFFERENCE gvo = .ok v) ∧
    (∀ (peak : Peak) (gvo : GetValueOptions) (w : JSVal),
      peak.xGradientDifference = none → gvo.xGradientDifference = some w →
      getValue 0 peak STATE_GRADIENT_DIFFERENCE gvo = .ok w) ∧
    (∀ (peak : Peak) (gvo : GetValueOptions),
      peak.xGradientDifference = none → gvo.xGradientDifference = none →
      getValue 0 peak STATE_GRADIENT_DIFFERENCE gvo =
        .ok (.val (peak.width / F64.num 2000))) ∧
    (∀ (peak : Peak) (gvo : GetValueOptions) (v : JSVal),
      peak.widthGradientDifference = some v →
      getValue 2 peak STATE_GRADIENT_DIFFERENCE gvo = .ok v) ∧
    (∀ (peak : Peak) (gvo : GetValueOptions) (w : JSVal),
      peak.widthGradientDifference = none → gvo.widthGradientDifference = some w →
      getValue 2 peak STATE_GRADIENT_DIFFERENCE gvo = .ok w) ∧
    (∀ (peak : Peak) (gvo : GetValueOptions),
      peak.widthGradientDifference = none → gvo.widthGradientDifference = none →
      getValue 2 peak STATE_GRADIENT_DIFFERENCE gvo =
        .ok (.val (peak.width / F64.num 2000))) ∧
    (∀ (peak : Peak) (gvo : GetValueOptions) (v : JSVal),
      peak.yGradientDifference = some v →
      getValue 1 peak STATE_GRADIENT_DIFFERENCE gvo = .ok v) ∧
    (∀ (peak : Peak) (gvo : GetValueOptions),
      peak.yGradientDifference = none →
      getValue 1 peak STATE_GRADIENT_DIFFERENCE gvo = .ok gvo.yGradientDifference) ∧
    (∀ (peak : Peak) (gvo : GetValueOptions) (v : JSVal),
      peak.muGradientDifference = some v →
      getValue 3 peak STATE_GRADIENT_DIFFERENCE gvo = .ok v) ∧
    (∀ (peak : Peak) (gvo : GetValueOptions),
      peak.muGradientDifference = none →
      getValue 3 peak STATE_GRADIENT_DIFFERENCE gvo = .ok gvo.muGradientDifference) ∧
    (∀ (data : DataInput) (options : Options) (ci : CheckedInput),
      options.yGradientDifference = none → options.muGradientDifference = none →
      checkInput data options = .ok ci →
      ci.getValueOptions.yGradientDifference = .val (F64.num (1/1000)) ∧
      ci.getValueOptions.muGradientDifference = .val (F64.num (1/100))) ∧
    (∀ f : PeakArgs → F64, toFloat (.fn f) = F64.nan) ∧
    (∀ (peak : Peak) (f : PeakArgs → F64),
      peak.xGradientDifference = some (.fn f) →
      (jsonCopy peak).xGradientDifference = none) := by
  refine ⟨?_, ?_, ?_, ?_, ?_, ?_, ?_, ?_, ?_, ?_, ?_, ?_, ?_⟩
  · intro peak gvo v h
    simp [getValue, STATE_GRADIENT_DIFFERENCE, h]
  · intro peak gvo w h1 h2
    simp [getValue, STATE_GRADIENT_DIFFERENCE, h1, h2]
  · intro peak gvo h1 h2
    simp [getValue, STATE_GRADIENT_DIFFERENCE, h1, h2]
  · intro peak gvo v h
    simp [getValue, STATE_GRADIENT_DIFFERENCE, h]
  · intro peak gvo w h1 h2
    simp [getValue, STATE_GRADIENT_DIFFERENCE, h1, h2]
  · intro peak gvo h1 h2
    simp [getValue, STATE_GRADIENT_DIFFERENCE, h1, h2]
  · intro peak gvo v h
    simp [getValue, STATE_GRADIENT_DIFFERENCE, h]
  · intro peak gvo h
    simp [getValue, STATE_GRADIENT_DIFFERENCE, h]
  · intro peak gvo v h
    simp [getValue, STATE_GRADIENT_DIFFERENCE, h]
  · intro peak gvo h
    simp [getValue, STATE_GRADIENT_DIFFERENCE, h]
  · intro data options ci hy hmu hok
    obtain ⟨-, -, -, -, hgy, hgmu⟩ := checkInput_ok hok
    rw [hgy, hgmu, hy, hmu]
    exact ⟨rfl, rfl⟩
  · intro f
    rfl
  · intro peak f h
    simp [jsonCopy, jsonNumOpt, h]

/-- Counterexample for C5 as stated: with the option-level override
`xGradientDifference = peak => peak.width`, the claim predicts a resolved step
of `peak.width = 2`; the code instead returns the function itself uninvoked,
the `Float64Array` store coerces it to NaN, and the built gradient vector
holds NaN, not `2`. -/
theorem c5_function_override_counterexample :
    gvoFn.xGradientDifference = some (.fn (fun p => p.width)) ∧
    peakA.xGradientDifference = none ∧
    getValue 0 peakA STATE_GRADIENT_DIFFERENCE gvoFn = .ok (.fn (fun p => p.width)) ∧
    toFloat (.fn (fun p : PeakArgs => p.width)) = F64.nan ∧
    (fun p : PeakArgs => p.width) pkArgsA = F64.num 2 ∧
    F64.nan ≠ F64.num 2 ∧
    (∃ pI pMn pMx pG, buildVectors [peakA] 3 gvoFn = .ok (pI, pMn, pMx, pG) ∧
      pG.getD 0 F64.nan = F64.nan ∧ pG.getD 0 F64.nan ≠ F64.num 2) := by
  refine ⟨rfl, rfl, rfl, rfl, rfl, by decide,
    [F64.num 0, F64.num (1/2), F64.num 2],
    [F64.num (-4), F64.num 0, F64.num (1/2)],
    [F64.num 4, F64.num (3/4), F64.num 8],
    [F64.nan, F64.num (1/1000), F64.num (1/1000)], ?_, rfl, by decide⟩
  norm_num [buildVectors, getValue, jsOr, toFloat, gvoFn, gvoA, peakA,
    STATE_INIT, STATE_MIN, STATE_MAX, STATE_GRADIENT_DIFFERENCE,
    bind, Except.bind, pure, Except.pure,
    List.replicate_succ, List.set_cons_zero, List.set_cons_succ,
    show List.range 1 = [0] from rfl, show List.range 3 = [0, 1, 2] from rfl,
    List.foldlM_cons, List.foldlM_nil, List.getD_cons_zero, List.getD_cons_succ]

/-- Witness for C5: a literal per-peak override wins over the option layer,
and with neither layer present the position step defaults to
`peak.width / 2000`. -/
theorem c5_gradient_resolution_witness :
    pkGdA.xGradientDifference = some (.val (F64.num 7)) ∧
    getValue 0 pkGdA STATE_GRADIENT_DIFFERENCE gvoA = .ok (.val (F64.num 7)) ∧
    peakA.xGradientDifference = none ∧ gvoA.xGradientDifference = none ∧
    getValue 0 peakA STATE_GRADIENT_DIFFERENCE gvoA =
      .ok (.val (peakA.width / F64.num 2000)) :=
  ⟨rfl, c5_gradient_resolution_amended.1 pkGdA gvoA _ rfl, rfl, rfl,
    c5_gradient_resolution_amended.2.2.1 peakA gvoA rfl rfl⟩

/-- Claim C6: with the option `optimization.parameters.x.max` set to
`peak => peak.x + peak.width * 0.1`, the resolved upper position bound for the
peak `{x: 0, y: 1, width: 2}` is exactly `0.2`. -/
theorem c6_override_resolution :
    resolveParameterOverride (some (.fn (fun p => p.x + p.width * F64.num (1/10))))
      (fun p => p.x + p.width * F64.num 2) pkArgsA = F64.num (1/5) := by
  norm_num [resolveParameterOverride, pkArgsA]

/-- Claim C7: each composite shape function equals the batch sum the spec
describes: for a vector `p` of `3·k` parameters the returned function at `t`
is the sum over `i < k` of the external evaluator at position `p[i]`, height
`p[i+k]`, width `p[i+2k]` (Gaussian and Lorentzian), and for `4·k` parameters
the pseudo-Voigt version additionally reads the mixing fraction from
`p[i+3k]`; the returned functions are pure and close only over `p`. -/
theorem c7_shape_batch_sum (g l : F64 → F64 → F64 → F64 → F64)
    (pvf : F64 → F64 → F64 → F64 → F64 → F64) (p q : List F64) (t : F64)
    (h3 : 3 ∣ p.length) (h4 : 4 ∣ q.length) :
    sumOfGaussians g p t = ((List.range (p.length / 3)).map (fun i =>
        g (p.getD i F64.nan) (p.getD (i + p.length / 3) F64.nan)
          (p.getD (i + (p.length / 3) * 2) F64.nan) t)).sum ∧
    sumOfLorentzians l p t = ((List.range (p.length / 3)).map (fun i =>
        l (p.getD i F64.nan) (p.getD (i + p.length / 3) F64.nan)
          (p.getD (i + (p.length / 3) * 2) F64.nan) t)).sum ∧
    sumOfGaussianLorentzians pvf q t = ((List.range (q.length / 4)).map (fun i =>
        pvf (q.getD i F64.nan) (q.getD (i + q.length / 4) F64.nan)
          (q.getD (i + (q.length / 4) * 2) F64.nan)
          (q.getD (i + (q.length / 4) * 3) F64.nan) t)).sum := by
  refine ⟨?_, ?_, ?_⟩
  · show (List.range (p.length / 3)).foldl _ (F64.num 0) = _
    rw [foldl_add_eq_sum (fun i =>
      g (p.getD i F64.nan) (p.getD (i + p.length / 3) F64.nan)
        (p.getD (i + (p.length / 3) * 2) F64.nan) t), f64_zero_add]
  · show (List.range (p.length / 3)).foldl _ (F64.num 0) = _
    rw [foldl_add_eq_sum (fun i =>
      l (p.getD i F64.nan) (p.getD (i + p.length / 3) F64.nan)
        (p.getD (i + (p.length / 3) * 2) F64.nan) t), f64_zero_add]
  · show (List.range (q.length / 4)).foldl _ (F64.num 0) = _
    rw [foldl_add_eq_sum (fun i =>
      pvf (q.getD i F64.nan) (q.getD (i + q.length / 4) F64.nan)
        (q.getD (i + (q.length / 4) * 2) F64.nan)
        (q.getD (i + (q.length / 4) * 3) F64.nan) t), f64_zero_add]

/-- Witness for C7: the batch-sum characterization applied to one-peak
parameter vectors of lengths 3 and 4. -/
theorem c7_shape_batch_sum_witness :
    (3 ∣ p3.length) ∧ (4 ∣ q4.length) ∧
    (sumOfGaussians extW.gaussianFct p3 (F64.num 0) =
        ((List.range (p3.length / 3)).map (fun i =>
          extW.gaussianFct (p3.getD i F64.nan) (p3.getD (i + p3.length / 3) F64.nan)
            (p3.getD (i + (p3.length / 3) * 2) F64.nan) (F64.num 0))).sum ∧
      sumOfLorentzians extW.lorentzianFct p3 (F64.num 0) =
        ((List.range (p3.length / 3)).map (fun i =>
          extW.lorentzianFct (p3.getD i F64.nan) (p3.getD (i + p3.length / 3) F64.nan)
            (p3.getD (i + (p3.length / 3) * 2) F64.nan) (F64.num 0))).sum ∧
      sumOfGaussianLorentzians extW.pseudovoigtFct q4 (F64.num 0) =
        ((List.range (q4.length / 4)).map (fun i =>
          extW.pseudovoigtFct (q4.getD i F64.nan) (q4.getD (i + q4.length / 4) F64.nan)
            (q4.getD (i + (q4.length / 4) * 2) F64.nan)
            (q4.getD (i + (q4.length / 4) * 3) F64.nan) (F64.num 0))).sum) :=
  ⟨by decide, by decide,
    c7_shape_batch_sum extW.gaussianFct extW.lorentzianFct extW.pseudovoigtFct
      p3 q4 (F64.num 0) (by decide) (by decide)⟩

/-- Claim C8: every parameter index outside the supported set 0..3 makes the
value resolver throw `The parameter is not supported`, for each of the four
resolution states, instead of silently returning a default. -/
theorem c8_unsupported_parameter_error (s : ℕ) (peak : Peak) (st : ℕ)
    (opts : GetValueOptions) (hs : 4 ≤ s) (hst : st < 4) :
    getValue s peak st opts = .error "The parameter is not supported" := by
  obtain ⟨k, rfl⟩ : ∃ k, s = k + 4 := ⟨s - 4, by omega⟩
  interval_cases st <;> rfl

/-- Witness for C8: parameter index 5 is rejected in the max-bound state. -/
theorem c8_unsupported_parameter_error_witness :
    4 ≤ 5 ∧ 2 < 4 ∧
    getValue 5 peakA 2 gvoA = .error "The parameter is not supported" :=
  ⟨by decide, by decide, c8_unsupported_parameter_error 5 peakA 2 gvoA
    (by decide) (by decide)⟩

/-- Claim C10: a peak whose `mu` field is the valid mixing fraction `0` gets
the initial mixing-fraction parameter `0.5`, because `peak.mu || 0.5` treats
the falsy `0` like an absent field. -/
theorem c10_mu_zero_default_half (peak : Peak) (opts : GetValueOptions)
    (h : peak.mu = some (F64.num 0)) :
    getValue 3 peak STATE_INIT opts = .ok (.val (F64.num (1/2))) := by
  simp [getValue, STATE_INIT, jsOr, h]

/-- Claim C9: `optimize` performs no input validation: with mismatched `x`/`y`
lengths, with an empty peak list, and with a zero-width peak, no error is
raised before the solver; for every solver `lm` the result is literally the
decode of `lm` applied to the normalized data and the vectors built from the
malformed input. -/
theorem c9_no_early_validation (ext : Externals) (lm : Solver) :
    optimizeCore ext lm dataMis [peakA] {} = .ok
      { error := (lm [F64.num 0, F64.num 1, F64.num 2] [F64.num (1/2), F64.num 1]
            (sumOfGaussians ext.gaussianFct)
            { minValues := [F64.num (-4), F64.num 0, F64.num (1/2)]
              maxValues := [F64.num 4, F64.num (3/4), F64.num 8]
              initialValues := [F64.num 0, F64.num (1/2), F64.num 2]
              gradientDifference :=
                [F64.num (1/1000), F64.num (1/1000), F64.num (1/1000)] }).parameterError
        iterations := (lm [F64.num 0, F64.num 1, F64.num 2] [F64.num (1/2), F64.num 1]
            (sumOfGaussians ext.gaussianFct)
            { minValues := [F64.num (-4), F64.num 0, F64.num (1/2)]
              maxValues := [F64.num 4, F64.num (3/4), F64.num 8]
              initialValues := [F64.num 0, F64.num (1/2), F64.num 2]
              gradientDifference :=
                [F64.num (1/1000), F64.num (1/1000), F64.num (1/1000)] }).iterations
        peaks := (decodeLoop
            (lm [F64.num 0, F64.num 1, F64.num 2] [F64.num (1/2), F64.num 1]
              (sumOfGaussians ext.gaussianFct)
              { minValues := [F64.num (-4), F64.num 0, F64.num (1/2)]
                maxValues := [F64.num 4, F64.num (3/4), F64.num 8]
                initialValues := [F64.num 0, F64.num (1/2), F64.num 2]
                gradientDifference :=
                  [F64.num (1/1000), F64.num (1/1000), F64.num (1/1000)] }).parameterValues
            [jsonCopy peakA] 3 (F64.num 2)).2 } ∧
    optimizeCore ext lm dataB [] {} = .ok
      { error := (lm [F64.num 0, F64.num 1] [F64.num (1/2), F64.num 1]
            (sumOfGaussians ext.gaussianFct)
            { minValues := [], maxValues := [], initialValues := []
              gradientDifference := [] }).parameterError
        iterations := (lm [F64.num 0, F64.num 1] [F64.num (1/2), F64.num 1]
            (sumOfGaussians ext.gaussianFct)
            { minValues := [], maxValues := [], initialValues := []
              gradientDifference := [] }).iterations
        peaks := [] } ∧
    optimizeCore ext lm dataB [pkW0] {} = .ok
      { error := (lm [F64.num 0, F64.num 1] [F64.num (1/2), F64.num 1]
            (sumOfGaussians ext.gaussianFct)
            { minValues := [F64.num 0, F64.num 0, F64.num 0]
              maxValues := [F64.num 0, F64.num (3/4), F64.num 0]
              initialValues := [F64.num 0, F64.num (1/2), F64.num 0]
              gradientDifference :=
                [F64.num 0, F64.num (1/1000), F64.num 0] }).parameterError
        iterations := (lm [F64.num 0, F64.num 1] [F64.num (1/2), F64.num 1]
            (sumOfGaussians ext.gaussianFct)
            { minValues := [F64.num 0, F64.num 0, F64.num 0]
              maxValues := [F64.num 0, F64.num (3/4), F64.num 0]
              initialValues := [F64.num 0, F64.num (1/2), F64.num 0]
              gradientDifference :=
                [F64.num 0, F64.num (1/1000), F64.num 0] }).iterations
        peaks := (decodeLoop
            (lm [F64.num 0, F64.num 1] [F64.num (1/2), F64.num 1]
              (sumOfGaussians ext.gaussianFct)
              { minValues := [F64.num 0, F64.num 0, F64.num 0]
                maxValues := [F64.num 0, F64.num (3/4), F64.num 0]
                initialValues := [F64.num 0, F64.num (1/2), F64.num 0]
                gradientDifference :=
                  [F64.num 0, F64.num (1/1000), F64.num 0] }).parameterValues
            [jsonCopy pkW0] 3 (F64.num 2)).2 } := by
  refine ⟨?_, ?_, ?_⟩
  · norm_num [optimizeCore, checkInput, getMaxValue, buildVectors, getValue, jsOr,
      toFloat, jsonCopy, jsonNumOpt, selectMethod, paramsFuncOf, STATE_INIT, STATE_MIN,
      STATE_MAX, STATE_GRADIENT_DIFFERENCE, dataMis, peakA, bind, Except.bind, pure,
      Except.pure,
      List.replicate_succ, List.set_cons_zero, List.set_cons_succ,
      show List.range 1 = [0] from rfl, show List.range 3 = [0, 1, 2] from rfl,
      List.foldlM_cons, List.foldlM_nil, List.getD_cons_zero, List.getD_cons_succ]
  · norm_num [optimizeCore, checkInput, getMaxValue, buildVectors, getValue, jsOr,
      toFloat, selectMethod, paramsFuncOf, decodeLoop, STATE_INIT, STATE_MIN,
      STATE_MAX, STATE_GRADIENT_DIFFERENCE, dataB, bind, Except.bind, pure,
      Except.pure, show List.range 0 = [] from rfl,
      List.foldlM_cons, List.foldlM_nil]
  · norm_num [optimizeCore, checkInput, getMaxValue, buildVectors, getValue, jsOr,
      toFloat, jsonCopy, jsonNumOpt, selectMethod, paramsFuncOf, STATE_INIT, STATE_MIN,
      STATE_MAX, STATE_GRADIENT_DIFFERENCE, dataB, pkW0, bind, Except.bind, pure,
      Except.pure,
      List.replicate_succ, List.set_cons_zero, List.set_cons_succ,
      show List.range 1 = [0] from rfl, show List.range 3 = [0, 1, 2] from rfl,
      List.foldlM_cons, List.foldlM_nil, List.getD_cons_zero, List.getD_cons_succ]

/-- Witness for C10: the zero-mu peak resolves to the initial mixing fraction
`0.5`. -/
theorem c10_mu_zero_default_half_witness :
    pkMu0.mu = some (F64.num 0) ∧
    getValue 3 pkMu0 STATE_INIT gvoA = .ok (.val (F64.num (1/2))) :=
  ⟨rfl, c10_mu_zero_default_half pkMu0 gvoA rfl⟩

end OptLor
